import Mathlib

/-!
Verification of the docker-factory deployment pipeline.

Shallow embedding of the Python sources:
  * `src/container_manager.py` — `SecureGCPContainerManager.__init__` /
    `_setup_identifiers` / `deploy`
  * `src/services/artifact_service.py` — `create_repository`,
    `push_to_registry`, `_verify_image_exists`
  * `src/db.py` — `save_deployment`, `get_deployment`
  * `main.py` — `deploy_to_cloud_run`, `set_service_iam_policy`,
    `generate_access_token`

External collaborators (the cloud registry, the compute backend, the
database commit, subprocess invocations, the clock and the randomness
source) are passed in as explicit parameters, so every definition is an
executable function of its inputs.
-/

/-- The immutable naming context built by
`SecureGCPContainerManager._setup_identifiers` (container_manager.py).
Field names follow the Python attributes. -/
structure DeploymentContext where
  client_id : String
  unique_id : String
  region : String
  repository_name : String
  registry_location : String
  image_name : String
  service_name : String
  image_tag : String
deriving DecidableEq, Repr

/-- The Python `s.split("@")[0]`: the longest prefix of `s` free of `@`
(the whole string when there is no `@`). -/
def before_at (s : String) : String :=
  ⟨s.data.takeWhile (fun ch => ch != '@')⟩

/-- Embedding of `_setup_identifiers` (container_manager.py lines 36-49).
The nondeterministic inputs — the `datetime.now()` strftime string, the
4-character random suffix and the GCP project id — are parameters. -/
def setup_identifiers (client_id timestamp random_suffix project_id : String) :
    DeploymentContext :=
  let unique_id := timestamp ++ "-" ++ random_suffix
  let region := "us-central1"
  let repository_name := "secure-app-" ++ before_at client_id
  let registry_location := region ++ "-docker.pkg.dev"
  let image_name := "secure-app"
  { client_id := client_id
    unique_id := unique_id
    region := region
    repository_name := repository_name
    registry_location := registry_location
    image_name := image_name
    service_name := "secure-app-" ++ unique_id
    image_tag := registry_location ++ "/" ++ project_id ++ "/" ++
      repository_name ++ "/" ++ image_name ++ ":" ++ unique_id }

/-- The only failure kind the spec assigns to identity generation. -/
inductive IdentityErr where
  | invalidArgument
deriving DecidableEq, Repr

/-- Exception-aware view of `_setup_identifiers`: the Python body performs
no validation of `client_id` and contains no raising operation (string
split, format and concatenation are total), so the embedding always
returns `.ok`. -/
def setup_identifiers_checked (client_id timestamp random_suffix project_id : String) :
    Except IdentityErr DeploymentContext :=
  .ok (setup_identifiers client_id timestamp random_suffix project_id)

/-- `s` occurs as a contiguous substring of `t`. -/
def embeds (s t : String) : Prop :=
  ∃ a b : List Char, t.data = a ++ s.data ++ b

/-- Outcome of a `subprocess.run` call that completed: a return code and
captured stdout (artifact_service.py `_verify_image_exists`). -/
structure CmdResult where
  returncode : Int
  stdout : String
deriving DecidableEq, Repr

/-- Ways the registry-list subprocess call itself can raise. -/
inductive QueryErr where
  | oserror
  | timeoutExpired
deriving DecidableEq, Repr

/-- The Python `bool(s.strip())`: true exactly when `s` contains a
non-whitespace character (stripping leaves a non-empty string). -/
def stripped_nonempty (s : String) : Bool :=
  s.data.any (fun ch => !ch.isWhitespace)

/-- Embedding of `ArtifactService._verify_image_exists`
(artifact_service.py lines 86-99): run `gcloud artifacts docker images
list`; return `returncode == 0 and bool(stdout.strip())`; if the call
raises, log and return `False`. `query` is the outcome of the
subprocess call. -/
def verify_image_exists (query : Except QueryErr CmdResult) : Bool :=
  match query with
  | .ok r => r.returncode == 0 && stripped_nonempty r.stdout
  | .error _ => false

/-- Observables of one run of the visibility-poll loop: whether a poll
succeeded, how many poll calls were made, and the list of sleep
durations (seconds) performed. -/
structure PollOutcome where
  success : Bool
  polls : Nat
  waits : List Nat
deriving DecidableEq, Repr

/-- Embedding of the `while retry_count < 3` loop of
`ArtifactService.push_to_registry` (artifact_service.py lines 63-70):
poll, return on success, otherwise `time.sleep(10)` and increment
`retry_count`. `verify` gives the result of the poll at each
`retry_count` value; `remaining` is `3 - retry_count`. -/
def poll_aux (verify : Nat → Bool) : Nat → Nat → PollOutcome
  | _, 0 => ⟨false, 0, []⟩
  | retry_count, r + 1 =>
    if verify retry_count then ⟨true, 1, []⟩
    else
      let rest := poll_aux verify (retry_count + 1) r
      ⟨rest.success, rest.polls + 1, 10 :: rest.waits⟩

/-- The full poll loop, starting at `retry_count = 0` with budget 3. -/
def push_poll (verify : Nat → Bool) : PollOutcome :=
  poll_aux verify 0 3

/-- Failure kinds of `ArtifactService.push_to_registry`. The final
`raise Exception("Image not available after retries")` is
`imageNotAvailable` (`PublishUnverified` in the spec's taxonomy). -/
inductive PushErr where
  | authConfigFailed
  | pushFailed
  | imageNotAvailable
deriving DecidableEq, Repr

/-- Collaborator outcomes consumed by `push_to_registry`: whether
`gcloud auth configure-docker` exits 0, whether `docker push` succeeds,
and the poll result at each attempt index. -/
structure PushEnv where
  auth_ok : Bool
  push_ok : Bool
  verify : Nat → Bool

/-- Embedding of `ArtifactService.push_to_registry`
(artifact_service.py lines 54-74): configure docker auth, push the
image, then poll for visibility up to 3 times, raising when no poll
observes the image. Returns the stage outcome together with the poll
observables. -/
def push_to_registry (env : PushEnv) : Except PushErr Unit × PollOutcome :=
  if env.auth_ok = false then (.error .authConfigFailed, ⟨false, 0, []⟩)
  else if env.push_ok = false then (.error .pushFailed, ⟨false, 0, []⟩)
  else
    let p := push_poll env.verify
    (if p.success then .ok () else .error .imageNotAvailable, p)

/-- A provisioned registry repository, keyed by `(region, repository_name)`
(a `RepositoryHandle` in the spec's data model). -/
structure RepoHandle where
  region : String
  repository_name : String
deriving DecidableEq, Repr

/-- Failure kinds of `ArtifactService.create_repository`: the remote
create call failing, or `_configure_docker_auth` exiting non-zero. -/
inductive RepoErr where
  | createFailed
  | authConfigFailed
deriving DecidableEq, Repr

/-- Embedding of `ArtifactService.create_repository`
(artifact_service.py lines 14-52): try `get_repository` by
`(region, repository_name)`; if found return the existing handle; on
`NotFound` issue the create call, wait for it, run
`_configure_docker_auth`, and return the new handle. The registry state
is the list of existing repositories; the result is
(stage outcome, new registry state, number of create calls made). -/
def create_repository (st : List RepoHandle) (repository_name region : String)
    (create_ok auth_ok : Bool) :
    Except RepoErr RepoHandle × List RepoHandle × Nat :=
  match st.find? (fun r => r.region == region && r.repository_name == repository_name) with
  | some existing => (.ok existing, st, 0)
  | none =>
    if create_ok = false then (.error .createFailed, st, 1)
    else if auth_ok = false then
      (.error .authConfigFailed, ⟨region, repository_name⟩ :: st, 1)
    else (.ok ⟨region, repository_name⟩, ⟨region, repository_name⟩ :: st, 1)

/-- A row of the `deployments` table (db.py class `Deployment`). -/
structure Deployment where
  service_name : String
  client_id : String
  image_tag : String
  status : String
  rpc_endpoint : String
  ws_endpoint : String
  access_token : String
deriving DecidableEq, Repr

/-- The `deployment_info` dict passed to `save_deployment`:
`service_name` is read with `[...]` (required), the other fields with
`.get(key, '')` (optional). -/
structure DeploymentInfo where
  service_name : String
  image_tag : Option String
  rpc_endpoint : Option String
  ws_endpoint : Option String
  access_token : Option String
deriving DecidableEq, Repr

/-- Storage failure kinds: the unique-constraint violation on
`service_name` (the spec's `StorageConflict`), or any other commit
failure. -/
inductive DbErr where
  | storageConflict
  | storageFailure
deriving DecidableEq, Repr

/-- The row `save_deployment` builds before `db.add` (db.py lines 41-49):
`status` is the literal `'RUNNING'`, optional fields default to `''`. -/
def deployment_row (info : DeploymentInfo) (client_id : String) : Deployment :=
  { service_name := info.service_name
    client_id := client_id
    image_tag := info.image_tag.getD ""
    status := "RUNNING"
    rpc_endpoint := info.rpc_endpoint.getD ""
    ws_endpoint := info.ws_endpoint.getD ""
    access_token := info.access_token.getD ""
  }

/-- Embedding of `save_deployment` (db.py lines 39-60). The database is
the list of committed rows; `service_name` carries a unique constraint,
so committing a duplicate raises, and `commit_ok` models any other
commit failure. On any error the session is rolled back — the committed
state is returned unchanged — and the error is re-raised. Returns
(outcome, database state after the call). -/
def save_deployment (db : List Deployment) (info : DeploymentInfo)
    (client_id : String) (commit_ok : Bool) :
    Except DbErr Deployment × List Deployment :=
  let row := deployment_row info client_id
  if db.any (fun r => r.service_name == info.service_name) then
    (.error .storageConflict, db)
  else if commit_ok = false then (.error .storageFailure, db)
  else (.ok row, db ++ [row])

/-- Embedding of `get_deployment` (db.py lines 63-68):
`query(Deployment).filter_by(service_name=...).first()`. -/
def get_deployment (db : List Deployment) (service_name : String) :
    Option Deployment :=
  db.find? (fun r => r.service_name == service_name)

/-- The JWT claims built by `generate_access_token` (main.py lines
376-384). PyJWT serialises `datetime` claims as integer Unix seconds,
so `exp` and `iat` are modelled in seconds. -/
structure TokenPayload where
  client_id : String
  exp : Nat
  iat : Nat
  jti : String
deriving DecidableEq, Repr

/-- Embedding of `SecureGCPContainerManager.generate_access_token`
(main.py lines 376-384). The body reads the clock twice:
`exp` is the FIRST `datetime.now(timezone.utc)` plus
`timedelta(minutes=expiration_minutes)`, and `iat` is the SECOND
`datetime.now(timezone.utc)`. `now_exp` and `now_iat` are those two
reads (epoch seconds, as PyJWT encodes them) and `jti_hex` is the
`secrets.token_hex(16)` draw. -/
def generate_access_token (client_id : String) (expiration_minutes : Nat)
    (now_exp now_iat : Nat) (jti_hex : String) : TokenPayload :=
  { client_id := client_id
    exp := now_exp + expiration_minutes * 60
    iat := now_iat
    jti := jti_hex
  }

/-- Errors surfaced by the Cloud Run collaborator calls. -/
inductive CloudErr where
  | permissionDenied
  | invalidArgument
  | unavailable
  | internalError
deriving DecidableEq, Repr

/-- An IAM binding (`policy_pb2.Binding`). -/
structure Binding where
  role : String
  members : List String
deriving DecidableEq, Repr

/-- An IAM policy (`policy_pb2.Policy`). -/
structure Policy where
  bindings : List Binding
deriving DecidableEq, Repr

/-- The policy `set_service_iam_policy` constructs (main.py lines
358-363): public invocation for `allUsers`. -/
def public_invoker_policy : Policy :=
  { bindings := [{ role := "roles/run.invoker", members := ["allUsers"] }] }

/-- Embedding of `SecureGCPContainerManager.set_service_iam_policy`
(main.py lines 352-374): build the public-invoker policy and issue the
`set_iam_policy` call; on any exception, log and re-raise it unchanged.
`set_call` is the remote outcome as a function of the policy sent. -/
def set_service_iam_policy (set_call : Policy → Except CloudErr Unit) :
    Except CloudErr Unit :=
  set_call public_invoker_policy

/-- Embedding of `SecureGCPContainerManager.deploy_to_cloud_run`
(main.py lines 294-350): build the service spec, issue `create_service`
and wait for it; if that raises, log and re-raise; after a successful
create, call `set_service_iam_policy`, whose exception is likewise
logged and re-raised unchanged. `create_call` is the outcome of the
create operation. -/
def deploy_to_cloud_run (create_call : Except CloudErr Unit)
    (set_call : Policy → Except CloudErr Unit) : Except CloudErr Unit :=
  match create_call with
  | .error e => .error e
  | .ok _ =>
    match set_service_iam_policy set_call with
    | .error e => .error e
    | .ok _ => .ok ()

/-- The observable calls the orchestrator can make, in the order
`SecureGCPContainerManager.deploy` (container_manager.py lines 51-86)
issues them. `save_deployment` is the Deployment Recorder's insert
(db.py); it is in the vocabulary so that traces can be checked for it. -/
inductive Event where
  | create_app_files
  | build_container
  | create_repository
  | push_to_registry
  | cloud_run_deploy
  | get_service_info
  | save_deployment
deriving DecidableEq, Repr

/-- Stage-tagged pipeline failures, wrapping each stage's error kind. -/
inductive DeployErr where
  | createFilesFailed
  | buildFailed
  | repoFailed (e : RepoErr)
  | pushFailed (e : PushErr)
  | cloudRunFailed (e : CloudErr)
  | serviceInfoFailed (e : CloudErr)
deriving DecidableEq, Repr

/-- Collaborator outcomes for one run of the orchestrator. -/
structure DeployEnv where
  registry : List RepoHandle
  create_files_ok : Bool
  build_ok : Bool
  repo_create_ok : Bool
  repo_auth_ok : Bool
  push_auth_ok : Bool
  push_ok : Bool
  verify : Nat → Bool
  cloud_run_call : Except CloudErr Unit
  iam_call : Policy → Except CloudErr Unit
  service_info_call : Except CloudErr Unit

namespace SecureGCPContainerManager

/-- Embedding of `SecureGCPContainerManager.deploy`
(container_manager.py lines 51-86): create app files, build the
container, ensure the repository, push to the registry, deploy to Cloud
Run, fetch service info, and return the assembled result. Any stage
exception aborts the run (the `except` clause logs and re-raises).
Returns the run outcome together with the trace of calls made. The
Cloud Run stage goes through `deploy_to_cloud_run` — the module defining
`CloudRunService` is not in the tree, and main.py's
`deploy_to_cloud_run` is the in-repo Service Deployer this stage
mirrors — and `get_service_info` is an opaque collaborator outcome.
The body contains no call to the Deployment Recorder, so no branch
appends `Event.save_deployment`. -/
def deploy (ctx : DeploymentContext) (env : DeployEnv) :
    Except DeployErr Unit × List Event :=
  if env.create_files_ok = false then
    (.error .createFilesFailed, [.create_app_files])
  else if env.build_ok = false then
    (.error .buildFailed, [.create_app_files, .build_container])
  else
    match (create_repository env.registry ctx.repository_name ctx.region
        env.repo_create_ok env.repo_auth_ok).1 with
    | .error e =>
      (.error (.repoFailed e),
        [.create_app_files, .build_container, .create_repository])
    | .ok _ =>
      match (push_to_registry
          ⟨env.push_auth_ok, env.push_ok, env.verify⟩).1 with
      | .error e =>
        (.error (.pushFailed e),
          [.create_app_files, .build_container, .create_repository,
            .push_to_registry])
      | .ok _ =>
        match deploy_to_cloud_run env.cloud_run_call env.iam_call with
        | .error e =>
          (.error (.cloudRunFailed e),
            [.create_app_files, .build_container, .create_repository,
              .push_to_registry, .cloud_run_deploy])
        | .ok _ =>
          match env.service_info_call with
          | .error e =>
            (.error (.serviceInfoFailed e),
              [.create_app_files, .build_container, .create_repository,
                .push_to_registry, .cloud_run_deploy, .get_service_info])
          | .ok _ =>
            (.ok (),
              [.create_app_files, .build_container, .create_repository,
                .push_to_registry, .cloud_run_deploy, .get_service_info])

end SecureGCPContainerManager

/-- C1: the visibility poll of `push_to_registry` runs at most 3
attempts, every wait it performs is 10 seconds, it returns success as
soon as one poll observes the image (after exactly k+1 poll calls when
attempt k is the first to succeed), and it fails with the
publish-unverified error (`imageNotAvailable`) when all 3 polls fail;
a registry first reporting the image on attempt 2 causes exactly 2
poll calls. -/
theorem push_to_registry_poll_spec (env : PushEnv)
    (hauth : env.auth_ok = true) (hpush : env.push_ok = true) :
    (push_to_registry env).2.polls ≤ 3 ∧
    (∀ w ∈ (push_to_registry env).2.waits, w = 10) ∧
    (∀ k, k < 3 → env.verify k = true → (∀ j, j < k → env.verify j = false) →
      (push_to_registry env).1 = .ok () ∧ (push_to_registry env).2.polls = k + 1) ∧
    ((∀ i, i < 3 → env.verify i = false) →
      (push_to_registry env).1 = .error .imageNotAvailable ∧
      (push_to_registry env).2.polls = 3) := by
  refine ⟨?_, ?_, ?_, ?_⟩
  · cases h0 : env.verify 0 <;> cases h1 : env.verify 1 <;> cases h2 : env.verify 2 <;>
      simp [push_to_registry, push_poll, poll_aux, hauth, hpush, h0, h1, h2]
  · cases h0 : env.verify 0 <;> cases h1 : env.verify 1 <;> cases h2 : env.verify 2 <;>
      simp [push_to_registry, push_poll, poll_aux, hauth, hpush, h0, h1, h2]
  · intro k hk hv hprev
    interval_cases k
    · simp [push_to_registry, push_poll, poll_aux, hauth, hpush, hv]
    · have h0 : env.verify 0 = false := hprev 0 (by omega)
      simp [push_to_registry, push_poll, poll_aux, hauth, hpush, h0, hv]
    · have h0 : env.verify 0 = false := hprev 0 (by omega)
      have h1 : env.verify 1 = false := hprev 1 (by omega)
      simp [push_to_registry, push_poll, poll_aux, hauth, hpush, h0, h1, hv]
  · intro hall
    have h0 : env.verify 0 = false := hall 0 (by omega)
    have h1 : env.verify 1 = false := hall 1 (by omega)
    have h2 : env.verify 2 = false := hall 2 (by omega)
    simp [push_to_registry, push_poll, poll_aux, hauth, hpush, h0, h1, h2]

/-- Witness for C1: the mock registry that first reports the image on
attempt 2 (0-indexed attempt 1) makes the stage succeed after exactly 2
poll calls. -/
theorem push_to_registry_poll_spec_witness :
    (push_to_registry ⟨true, true, fun i => i == 1⟩).1 = .ok () ∧
    (push_to_registry ⟨true, true, fun i => i == 1⟩).2.polls = 2 :=
  (push_to_registry_poll_spec ⟨true, true, fun i => i == 1⟩ rfl rfl).2.2.1 1
    (by decide) (by decide) (by decide)

/-- A string embeds itself. -/
theorem embeds_self (s : String) : embeds s s :=
  ⟨[], [], by simp⟩

/-- Embedding is preserved by appending on the right. -/
theorem embeds_append_left (s t u : String) (h : embeds s t) : embeds s (t ++ u) := by
  obtain ⟨a, b, hab⟩ := h
  exact ⟨a, b ++ u.data, by simp [String.data_append, hab, List.append_assoc]⟩

/-- Embedding is preserved by prepending on the left. -/
theorem embeds_append_right (s t u : String) (h : embeds s u) : embeds s (t ++ u) := by
  obtain ⟨a, b, hab⟩ := h
  exact ⟨t.data ++ a, b, by simp [String.data_append, hab, List.append_assoc]⟩

/-- C9: for every `DeploymentContext` produced by `_setup_identifiers`,
the derived `image_tag` embeds the registry location, the project
identifier, the repository name, the image name and the unique id as
contiguous substrings. -/
theorem image_tag_embeds_components (c t r p : String) :
    embeds (setup_identifiers c t r p).registry_location
      (setup_identifiers c t r p).image_tag ∧
    embeds p (setup_identifiers c t r p).image_tag ∧
    embeds (setup_identifiers c t r p).repository_name
      (setup_identifiers c t r p).image_tag ∧
    embeds (setup_identifiers c t r p).image_name
      (setup_identifiers c t r p).image_tag ∧
    embeds (setup_identifiers c t r p).unique_id
      (setup_identifiers c t r p).image_tag := by
  refine ⟨?_, ?_, ?_, ?_, ?_⟩
  · exact embeds_append_left _ _ _ (embeds_append_left _ _ _
      (embeds_append_left _ _ _ (embeds_append_left _ _ _
        (embeds_append_left _ _ _ (embeds_append_left _ _ _
          (embeds_append_left _ _ _ (embeds_append_left _ _ _ (embeds_self _))))))))
  · exact embeds_append_left _ _ _ (embeds_append_left _ _ _
      (embeds_append_left _ _ _ (embeds_append_left _ _ _
        (embeds_append_left _ _ _ (embeds_append_left _ _ _
          (embeds_append_right _ _ _ (embeds_self _)))))))
  · exact embeds_append_left _ _ _ (embeds_append_left _ _ _
      (embeds_append_left _ _ _ (embeds_append_left _ _ _
        (embeds_append_right _ _ _ (embeds_self _)))))
  · exact embeds_append_left _ _ _ (embeds_append_left _ _ _
      (embeds_append_right _ _ _ (embeds_self _)))
  · exact embeds_append_right _ _ _ (embeds_self _)

/-- C5: `create_repository` is idempotent: when the repository is already
present the existing handle is returned, the registry is unchanged and no
create call is made; starting from a registry without the repository,
calling it twice performs exactly one create (on the first call, none on
the second) and returns the same handle both times. -/
theorem create_repository_idempotent (st : List RepoHandle) (n g : String) :
    (∀ existing,
      st.find? (fun h => h.region == g && h.repository_name == n) = some existing →
      create_repository st n g true true = (.ok existing, st, 0)) ∧
    (st.find? (fun h => h.region == g && h.repository_name == n) = none →
      create_repository st n g true true = (.ok ⟨g, n⟩, ⟨g, n⟩ :: st, 1) ∧
      create_repository (⟨g, n⟩ :: st) n g true true =
        (.ok ⟨g, n⟩, ⟨g, n⟩ :: st, 0)) := by
  constructor
  · intro existing hex
    simp [create_repository, hex]
  · intro hnone
    constructor
    · simp [create_repository, hnone]
    · simp [create_repository, List.find?]

/-- Witness for C5: on the empty registry, the first call creates the
repository (one create call) and the second returns the same handle with
no create call. -/
theorem create_repository_idempotent_witness :
    create_repository [] "secure-app-a" "us-central1" true true =
      (.ok ⟨"us-central1", "secure-app-a"⟩, [⟨"us-central1", "secure-app-a"⟩], 1) ∧
    create_repository [⟨"us-central1", "secure-app-a"⟩] "secure-app-a" "us-central1"
        true true =
      (.ok ⟨"us-central1", "secure-app-a"⟩, [⟨"us-central1", "secure-app-a"⟩], 0) :=
  (create_repository_idempotent [] "secure-app-a" "us-central1").2 rfl

/-- If no element of the first list satisfies the predicate, searching the
concatenation searches the second list. -/
theorem find?_append_of_any_eq_false {α : Type} (p : α → Bool) (l1 l2 : List α)
    (h : l1.any p = false) : (l1 ++ l2).find? p = l2.find? p := by
  induction l1 with
  | nil => rfl
  | cons a l ih =>
    simp only [List.any_cons, Bool.or_eq_false_iff] at h
    simp [List.find?, h.1, ih h.2]

/-- C8: the Deployment Recorder rejects a second insert for an
already-used service name with `storageConflict` while leaving the state
unchanged, the first record stays queryable (with status RUNNING), and on
any storage error the state after the call equals the state before it —
no partial row is ever visible. -/
theorem save_deployment_conflict_and_rollback
    (db : List Deployment) (info info2 : DeploymentInfo) (c c2 : String) (ck : Bool)
    (hfresh : db.any (fun r => r.service_name == info.service_name) = false)
    (hsame : info2.service_name = info.service_name) :
    save_deployment db info c true =
      (.ok (deployment_row info c), db ++ [deployment_row info c]) ∧
    save_deployment (db ++ [deployment_row info c]) info2 c2 ck =
      (.error .storageConflict, db ++ [deployment_row info c]) ∧
    get_deployment (db ++ [deployment_row info c]) info.service_name =
      some (deployment_row info c) ∧
    (deployment_row info c).status = "RUNNING" ∧
    (∀ (db2 : List Deployment) (i2 : DeploymentInfo) (c3 : String) (k : Bool),
      (save_deployment db2 i2 c3 k).1.isOk = false →
      (save_deployment db2 i2 c3 k).2 = db2) := by
  refine ⟨?_, ?_, ?_, rfl, ?_⟩
  · simp [save_deployment, hfresh]
  · have hdup : (db ++ [deployment_row info c]).any
        (fun r => r.service_name == info2.service_name) = true := by
      simp [List.any_append, hsame, deployment_row]
    simp [save_deployment, hdup]
  · have hnone : db.find? (fun r => r.service_name == info.service_name) = none := by
      rw [List.find?_eq_none]
      intro x hx
      have := List.any_eq_false.mp hfresh x hx
      simpa using this
    unfold get_deployment
    rw [find?_append_of_any_eq_false _ _ _ hfresh]
    simp [List.find?, deployment_row]
  · intro db2 i2 c3 k hfail
    by_cases h1 : db2.any (fun r => r.service_name == i2.service_name) = true
    · simp [save_deployment, h1]
    · rw [Bool.not_eq_true] at h1
      cases k
      · simp [save_deployment, h1]
      · simp [save_deployment, h1, Except.isOk, Except.toBool] at hfail

/-- Witness for C8: on the empty store, the first insert for
service `secure-app-1` succeeds and a second insert for the same name is
rejected with `storageConflict`, leaving the store unchanged. -/
theorem save_deployment_conflict_witness :
    save_deployment [] ⟨"secure-app-1", none, none, none, none⟩ "a@b.com" true =
      (.ok (deployment_row ⟨"secure-app-1", none, none, none, none⟩ "a@b.com"),
        [deployment_row ⟨"secure-app-1", none, none, none, none⟩ "a@b.com"]) ∧
    save_deployment [deployment_row ⟨"secure-app-1", none, none, none, none⟩ "a@b.com"]
        ⟨"secure-app-1", some "tag", none, none, none⟩ "c@d.com" true =
      (.error .storageConflict,
        [deployment_row ⟨"secure-app-1", none, none, none, none⟩ "a@b.com"]) := by
  have h := save_deployment_conflict_and_rollback []
    ⟨"secure-app-1", none, none, none, none⟩
    ⟨"secure-app-1", some "tag", none, none, none⟩ "a@b.com" "c@d.com" true rfl rfl
  exact ⟨h.1, h.2.1⟩

/-- C3 counterexample: `generate_access_token` reads the clock twice
(`exp` from the first read, `iat` from the second), so an issuance whose
second read lands one second after the first yields
`exp - iat = 3599` seconds, not exactly 60 minutes. -/
theorem generate_access_token_ttl_counterexample :
    ¬ ((generate_access_token "a@b.com" 60 0 1 "00").exp -
        (generate_access_token "a@b.com" 60 0 1 "00").iat = 60 * 60) := by
  decide

/-- C3 amended: when the two clock reads during issuance return the same
timestamp, the token's expires-at minus issued-at is exactly 60 minutes
for ttl = 60, and two issuances drawing distinct jti randomness carry
distinct jti values. -/
theorem generate_access_token_ttl_and_jti (c : String) (t1 t2 : Nat)
    (r1 r2 : String) (hclock : t2 = t1) (hrand : r1 ≠ r2) :
    (generate_access_token c 60 t1 t2 r1).exp -
      (generate_access_token c 60 t1 t2 r1).iat = 60 * 60 ∧
    (generate_access_token c 60 t1 t2 r1).jti ≠
      (generate_access_token c 60 t1 t2 r2).jti := by
  subst hclock
  refine ⟨?_, ?_⟩
  · simp [generate_access_token]
  · simpa [generate_access_token] using hrand

/-- Witness for the amended C3 at a concrete issuance time and two
concrete randomness draws. -/
theorem generate_access_token_ttl_and_jti_witness :
    (generate_access_token "a@b.com" 60 100 100 "aa").exp -
      (generate_access_token "a@b.com" 60 100 100 "aa").iat = 60 * 60 ∧
    (generate_access_token "a@b.com" 60 100 100 "aa").jti ≠
      (generate_access_token "a@b.com" 60 100 100 "bb").jti :=
  generate_access_token_ttl_and_jti "a@b.com" 100 100 "aa" "bb" rfl (by decide)

/-- C6 counterexample: a create-stage failure and a policy-stage failure
carrying the same underlying error produce identical observable results
from `deploy_to_cloud_run` — there is no distinct `PolicyBindingFailed`
error kind, so the two failure points are indistinguishable. -/
theorem deploy_to_cloud_run_policy_counterexample :
    deploy_to_cloud_run (.error .permissionDenied) (fun _ => .ok ()) =
      deploy_to_cloud_run (.ok ()) (fun _ => .error .permissionDenied) := rfl

/-- C6 amended: when the access-policy call fails after a successful
create, `deploy_to_cloud_run` re-raises the policy call's underlying
error unchanged, exactly as it re-raises a create failure — no distinct
`PolicyBindingFailed` kind is surfaced, so the caller can tell the two
apart only when the underlying errors differ. -/
theorem deploy_to_cloud_run_error_propagation (e : CloudErr)
    (set_call : Policy → Except CloudErr Unit) :
    deploy_to_cloud_run (.ok ()) (fun _ => .error e) = .error e ∧
    deploy_to_cloud_run (.error e) set_call = .error e :=
  ⟨rfl, rfl⟩

/-- C7 counterexample: identity generation with the empty clientId does
not fail with `invalidArgument` — `_setup_identifiers` performs no
validation and returns an ordinary context (with
`repository_name = "secure-app-"`). -/
theorem setup_identifiers_empty_counterexample :
    setup_identifiers_checked "" "20240101-000000" "ab12" "proj" =
      .ok
        { client_id := ""
          unique_id := "20240101-000000-ab12"
          region := "us-central1"
          repository_name := "secure-app-"
          registry_location := "us-central1-docker.pkg.dev"
          image_name := "secure-app"
          service_name := "secure-app-20240101-000000-ab12"
          image_tag :=
            "us-central1-docker.pkg.dev/proj/secure-app-/secure-app:20240101-000000-ab12" } ∧
    setup_identifiers_checked "" "20240101-000000" "ab12" "proj" ≠
      .error .invalidArgument := by
  constructor
  · exact congrArg Except.ok (by decide)
  · simp [setup_identifiers_checked]

/-- C7 amended: identity generation never fails: for every clientId —
the empty string included — `_setup_identifiers` succeeds, and the
derived fields are computed by pure string operations with no I/O. -/
theorem setup_identifiers_never_fails (c t r p : String) :
    setup_identifiers_checked c t r p = .ok (setup_identifiers c t r p) ∧
    (setup_identifiers c t r p).unique_id = t ++ "-" ++ r ∧
    (setup_identifiers c t r p).service_name = "secure-app-" ++ (t ++ "-" ++ r) ∧
    (setup_identifiers c t r p).repository_name = "secure-app-" ++ before_at c :=
  ⟨rfl, rfl, rfl, rfl⟩

/-- C10: `_verify_image_exists` never propagates a query failure: a
raising registry query yields `false`, and such an attempt counts as an
ordinary failed poll — a query error on attempt 1 followed by a
successful query on attempt 2 makes the poll loop succeed after exactly
2 poll calls. -/
theorem verify_image_exists_never_raises (e : QueryErr)
    (queries : Nat → Except QueryErr CmdResult)
    (h0 : queries 0 = .error e)
    (h1 : queries 1 = .ok { returncode := 0, stdout := "img" }) :
    verify_image_exists (.error e) = false ∧
    (push_poll (fun i => verify_image_exists (queries i))).success = true ∧
    (push_poll (fun i => verify_image_exists (queries i))).polls = 2 := by
  have hs : stripped_nonempty "img" = true := by decide
  refine ⟨rfl, ?_, ?_⟩ <;>
    simp [push_poll, poll_aux, h0, h1, verify_image_exists, hs]

/-- Witness for C10 at a concrete query trace that raises on the first
attempt and reports the image on the second. -/
theorem verify_image_exists_never_raises_witness :
    verify_image_exists (.error .oserror) = false ∧
    (push_poll (fun i => verify_image_exists
      (if i = 0 then .error .oserror
        else .ok { returncode := 0, stdout := "img" }))).success = true ∧
    (push_poll (fun i => verify_image_exists
      (if i = 0 then .error .oserror
        else .ok { returncode := 0, stdout := "img" }))).polls = 2 :=
  verify_image_exists_never_raises .oserror
    (fun i => if i = 0 then .error .oserror
      else .ok { returncode := 0, stdout := "img" }) rfl rfl

/-- C2 counterexample: a concrete run in which every stage succeeds — the
pipeline returns a result — yet the call trace contains zero Deployment
Recorder inserts, not exactly one. -/
theorem deploy_persists_no_record_counterexample :
    (SecureGCPContainerManager.deploy
        (setup_identifiers "a@b.com" "20240101-000000" "ab12" "proj")
        ⟨[], true, true, true, true, true, true, fun _ => true,
          .ok (), fun _ => .ok (), .ok ()⟩).1 = .ok () ∧
    ((SecureGCPContainerManager.deploy
        (setup_identifiers "a@b.com" "20240101-000000" "ab12" "proj")
        ⟨[], true, true, true, true, true, true, fun _ => true,
          .ok (), fun _ => .ok (), .ok ()⟩).2).count Event.save_deployment = 0 :=
  ⟨rfl, rfl⟩

/-- C2 amended: no run of the orchestrator's deploy persists a
DeploymentRecord: the method returns its result without ever invoking
the Deployment Recorder, so every run's call trace — successful or not —
contains zero save events. (`db.save_deployment`, the function that
would create the status-RUNNING record, has no caller in the pipeline.) -/
theorem deploy_persists_no_record (ctx : DeploymentContext) (env : DeployEnv) :
    ((SecureGCPContainerManager.deploy ctx env).2).count Event.save_deployment = 0 := by
  unfold SecureGCPContainerManager.deploy
  split
  · rfl
  · split
    · rfl
    · split
      · rfl
      · split
        · rfl
        · split
          · rfl
          · split
            · rfl
            · rfl

/-- C4: when every stage up to the image push succeeds but no poll
observes the image within the 3-attempt budget, the pipeline halts with
the publish-unverified error, its trace contains no service-deploy call
and no record is ever persisted. -/
theorem deploy_halts_on_unverified_publish (ctx : DeploymentContext) (env : DeployEnv)
    (hcf : env.create_files_ok = true) (hb : env.build_ok = true)
    (hrc : env.repo_create_ok = true) (hra : env.repo_auth_ok = true)
    (hpa : env.push_auth_ok = true) (hp : env.push_ok = true)
    (hver : ∀ i, i < 3 → env.verify i = false) :
    (SecureGCPContainerManager.deploy ctx env).1 =
      .error (.pushFailed .imageNotAvailable) ∧
    Event.cloud_run_deploy ∉ (SecureGCPContainerManager.deploy ctx env).2 ∧
    Event.save_deployment ∉ (SecureGCPContainerManager.deploy ctx env).2 := by
  have h0 := hver 0 (by omega)
  have h1 := hver 1 (by omega)
  have h2 := hver 2 (by omega)
  have hpush : (push_to_registry ⟨env.push_auth_ok, env.push_ok, env.verify⟩).1 =
      .error .imageNotAvailable := by
    simp [push_to_registry, push_poll, poll_aux, hpa, hp, h0, h1, h2]
  have hrepo : ∃ h, (create_repository env.registry ctx.repository_name ctx.region
      env.repo_create_ok env.repo_auth_ok).1 = .ok h := by
    unfold create_repository
    rcases hf : env.registry.find?
        (fun r => r.region == ctx.region && r.repository_name == ctx.repository_name)
      with _ | ex
    · exact ⟨⟨ctx.region, ctx.repository_name⟩, by simp [hf, hrc, hra]⟩
    · exact ⟨ex, by simp [hf]⟩
  obtain ⟨hdl, hrepo⟩ := hrepo
  unfold SecureGCPContainerManager.deploy
  rw [hcf, hb, hrepo, hpush]
  simp

/-- Witness for C4: a concrete run whose registry never reports the
image halts with the publish-unverified error, with no service-deploy
call and no persisted record in its trace. -/
theorem deploy_halts_on_unverified_publish_witness :
    (SecureGCPContainerManager.deploy
        (setup_identifiers "a@b.com" "20240101-000000" "ab12" "proj")
        ⟨[], true, true, true, true, true, true, fun _ => false,
          .ok (), fun _ => .ok (), .ok ()⟩).1 =
      .error (.pushFailed .imageNotAvailable) ∧
    Event.cloud_run_deploy ∉ (SecureGCPContainerManager.deploy
        (setup_identifiers "a@b.com" "20240101-000000" "ab12" "proj")
        ⟨[], true, true, true, true, true, true, fun _ => false,
          .ok (), fun _ => .ok (), .ok ()⟩).2 ∧
    Event.save_deployment ∉ (SecureGCPContainerManager.deploy
        (setup_identifiers "a@b.com" "20240101-000000" "ab12" "proj")
        ⟨[], true, true, true, true, true, true, fun _ => false,
          .ok (), fun _ => .ok (), .ok ()⟩).2 :=
  deploy_halts_on_unverified_publish
    (setup_identifiers "a@b.com" "20240101-000000" "ab12" "proj")
    ⟨[], true, true, true, true, true, true, fun _ => false,
      .ok (), fun _ => .ok (), .ok ()⟩
    rfl rfl rfl rfl rfl rfl (fun _ _ => rfl)
